import Mathlib

/-!
Verification development for the sno-relax-server conversational pipeline.

The definitions below are a shallow embedding of the chat pipeline of this
repository: the HTTP chatbot route (src/unnamed/part_002, an Express router)
and the socket handler (src/sockets/chatbotSocket.js).  External effects
(the Google translate endpoint, the Cohere generate endpoint, the database)
are modelled as explicit inputs: the outcome of each network call is an
input value, and each persistence call is reported in the output record.
JavaScript values reachable from the pipeline are modelled by the inductive
type `JsValue`; `JSON.parse` is a host primitive, so it is taken as an
explicit function argument `parse : String -> Option JsValue` (`none`
models a parse exception).
-/

/-- Model of a JavaScript/JSON value as the pipeline observes it.
Numbers are modelled as integers (no float behaviour is relevant here). -/
inductive JsValue where
  | null
  | bool (b : Bool)
  | num (n : Int)
  | str (s : String)
  | arr (xs : List JsValue)
  | obj (fields : List (String × JsValue))

/-- JavaScript truthiness of a value (`undefined` is folded into `null`:
both are falsy and the pipeline never distinguishes them). -/
def truthy : JsValue → Bool
  | .null => false
  | .bool b => b
  | .num n => n != 0
  | .str s => s != ""
  | .arr _ => true
  | .obj _ => true

/-- Property access `v[k]` on an object; `undefined` (modelled `.null`)
on absent keys and on non-objects, as with JS optional chaining. -/
def getField : JsValue → String → JsValue
  | .obj fs, k =>
    match fs.find? (fun p => p.1 == k) with
    | some p => p.2
    | none => .null
  | _, _ => .null

/-- Whether an object value carries a key at all (present even if falsy). -/
def hasField : JsValue → String → Bool
  | .obj fs, k => fs.any (fun p => p.1 == k)
  | _, _ => false

/-- Index access `v[i]`: array element, single character of a string,
otherwise `undefined` (modelled `.null`). -/
def jsIndex : JsValue → Nat → JsValue
  | .arr xs, i =>
    match xs.get? i with
    | some x => x
    | none => .null
  | .str s, i =>
    match s.data.get? i with
    | some c => .str (String.mk [c])
    | none => .null
  | _, _ => .null

mutual
/-- JavaScript string coercion `String(v)`, used when the translate code
concatenates response chunks.  (Array elements that are null are rendered
empty, as JS `Array.prototype.join` does.) -/
def jsToString : JsValue → String
  | .null => "null"
  | .bool b => if b then "true" else "false"
  | .num n => toString n
  | .str s => s
  | .arr xs => jsToStringList xs
  | .obj _ => "[object Object]"

/-- Comma-joined rendering of array elements for `jsToString`. -/
def jsToStringList : List JsValue → String
  | [] => ""
  | [x] => match x with
    | .null => ""
    | v => jsToString v
  | x :: xs =>
    (match x with
     | .null => ""
     | v => jsToString v) ++ "," ++ jsToStringList xs
end

/-- Whether the character list `needle` occurs at the start of `hay`. -/
def listStartsWith : List Char → List Char → Bool
  | _, [] => true
  | [], _ :: _ => false
  | a :: as, b :: bs => a == b && listStartsWith as bs

/-- Whether `needle` occurs contiguously anywhere in `hay`. -/
def listContainsSub (needle : List Char) : List Char → Bool
  | [] => listStartsWith [] needle
  | c :: t => listStartsWith (c :: t) needle || listContainsSub needle t

/-- JavaScript `hay.includes(needle)` on strings. -/
def jsIncludes (hay needle : String) : Bool :=
  listContainsSub needle.data hay.data

/-- JavaScript `toLowerCase`, character by character (the pipeline's
keywords are ASCII, where the two agree). -/
def jsToLower (s : String) : String :=
  String.mk (s.data.map Char.toLower)

/-- JavaScript `trim`: whitespace stripped from both ends. -/
def jsTrim (s : String) : String :=
  String.mk
    (((s.data.dropWhile Char.isWhitespace).reverse.dropWhile
        Char.isWhitespace).reverse)

/-- Outcome of one `fetch` call as the pipeline observes it:
`threw` covers network errors, aborts on the 5s timeout and a throwing
`res.json()`; `badStatus` is a response with `res.ok` false; `body d`
is a success whose parsed JSON body is `d`. -/
inductive FetchOutcome where
  | threw
  | badStatus
  | body (data : JsValue)

/-- Outcome of one `co.chat` call to the Cohere generate backend:
either the raw reply text of a successful call, or a thrown
error/timeout. -/
inductive GenOutcome where
  | success (raw : String)
  | failure
deriving Repr, DecidableEq

/-- The fixed clinical/emotional keyword list of the route
(src/unnamed/part_002 line 241). -/
def KEYWORDS : List String :=
  ["stress", "anxious", "anxiety", "depress", "sad", "happy", "sleep",
   "insomnia", "tired", "panic", "work", "family", "relationship",
   "angry", "lonely", "overwhelm", "suicid"]

/-- Keywords matched by a message: the route lowercases the canonicalized
text and keeps every keyword that occurs as a substring
(src/unnamed/part_002 lines 242-243). -/
def matchedKeywords (translatedText : String) : List String :=
  KEYWORDS.filter (fun k => jsIncludes (jsToLower translatedText) k)

/-- The prefer-generative flag: two or more keyword matches, or none at all
(src/unnamed/part_002 line 245). -/
def preferCohere (translatedText : String) : Bool :=
  decide (2 ≤ (matchedKeywords translatedText).length)
    || ((matchedKeywords translatedText).length == 0)

/-- Language detection of the route and socket handler (identical code,
src/unnamed/part_002 lines 168-182, chatbotSocket.js lines 18-32):
any failure yields the default code "en"; a success returns
`(data && data[2]) || "en"` coerced to a string. -/
def detectLanguage (net : FetchOutcome) : String :=
  match net with
  | .threw => "en"
  | .badStatus => "en"
  | .body data =>
    let v := if truthy data then jsIndex data 2 else data
    if truthy v then jsToString v else "en"

/-- The route's `translate` (src/unnamed/part_002 lines 185-210).
Returns the produced text and whether the network was consulted.
The only fast path is `source === target`; the whole body is wrapped in
try/catch, so every failure returns the original text. -/
def translateRoute (text source target : String) (net : FetchOutcome) :
    String × Bool :=
  if source == target then (text, false)
  else
    match net with
    | .threw => (text, true)
    | .badStatus => (text, true)
    | .body data =>
      if !truthy data then (text, true)
      else
        match jsIndex data 0 with
        | .arr chunks =>
          let translated := chunks.foldl
            (fun acc chunk =>
              let c := jsIndex chunk 0
              if truthy chunk && truthy c then acc ++ jsToString c else acc)
            ""
          (if translated == "" then text else translated, true)
        | _ => (text, true)

/-- The socket handler's `translate` (chatbotSocket.js lines 34-53): it adds
an empty-text fast path `if (!text) return text;` before the
same-language check, and is otherwise the route's code line for line. -/
def translateSocket (text source target : String) (net : FetchOutcome) :
    String × Bool :=
  if text == "" then (text, false)
  else translateRoute text source target net

/-- The route's reply fallback chain (src/unnamed/part_002 lines 258-294):
unconfigured backend gives the fixed unavailable message tagged "error";
a thrown call gives the fixed apology tagged "error"; a success is the
trimmed backend text tagged "cohere"; and an empty reply is replaced by
the fixed default message tagged "default".  (Lines 277-287 of the file
are an orphaned fragment of a removed secondary-backend branch which
references an undefined `hfRes` and closes no opened block; it is not
part of the reachable chain and is omitted.) -/
def resolveReplyRoute (configured : Bool) (out : GenOutcome) : String × String :=
  let p :=
    if configured then
      match out with
      | .success raw => (jsTrim raw, "cohere")
      | .failure =>
        ("I'm sorry, I'm having trouble responding right now. Please try again in a moment.",
         "error")
    else
      ("Service temporarily unavailable. Please try again later.", "error")
  if p.1 == "" then
    ("I'm here to listen and support you. 🌱 What's on your mind?", "default")
  else p

/-- The socket handler's reply fallback chain (chatbotSocket.js
lines 132-150): same structure as the route, with its own default text. -/
def resolveReplySocket (configured : Bool) (out : GenOutcome) : String × String :=
  let p :=
    if configured then
      match out with
      | .success raw => (jsTrim raw, "cohere")
      | .failure =>
        ("I'm sorry, I'm having trouble responding right now. Please try again in a moment.",
         "error")
    else
      ("Service temporarily unavailable. Please try again later.", "error")
  if p.1 == "" then
    ("I'm here to listen and support you. What's on your mind?", "default")
  else p

/-- The opening-brace character, written by code point to keep JSON text
plain. -/
def lbraceChar : Char := Char.ofNat 123

/-- The suffix of a character list starting at its first opening brace,
`none` when the list has no brace. -/
def dropBeforeBrace : List Char → Option (List Char)
  | [] => none
  | c :: cs => if c == lbraceChar then some (c :: cs) else dropBeforeBrace cs

/-- The mood extractor's JSON recovery (src/unnamed/part_002 lines 143-144):
`indexOf` the first opening brace and `slice` from there; the text is
unchanged when it has no brace. -/
def sliceFromFirstBrace (s : String) : String :=
  match dropBeforeBrace s.data with
  | some l => String.mk l
  | none => s

/-- Extraction of `data?.generations?.[0]?.text || ''` followed by `.trim()`
(src/unnamed/part_002 lines 139-140).  A truthy non-string `text` value
makes `.trim()` throw, which the outer catch maps to the `none` result,
so that case is reported as `none` here. -/
def moodRespText (data : JsValue) : Option String :=
  let v := getField (jsIndex (getField data "generations") 0) "text"
  if truthy v then
    match v with
    | .str s => some (jsTrim s)
    | _ => none
  else some (jsTrim "")

/-- The exact string handed to `JSON.parse` by the mood extractor for a
given response body: the recovered text sliced from its first brace. -/
def moodParseInput (data : JsValue) : Option String :=
  (moodRespText data).map sliceFromFirstBrace

/-- The mood extractor `callCohereAnalyzeMood` of the route
(src/unnamed/part_002 lines 89-163) and, with the same logic, of the
socket handler (chatbotSocket.js lines 73-117).  `configured` is whether
`COHERE_API_KEY` is set; `net` the fetch outcome; `parse` stands for the
host primitive `JSON.parse`, `none` modelling a thrown parse error.
Every failure path returns `none`; a parsed value is returned exactly
when it is truthy and has a truthy `mood` or a truthy `habits` field. -/
def callCohereAnalyzeMood (configured : Bool) (net : FetchOutcome)
    (parse : String → Option JsValue) : Option JsValue :=
  if !configured then none
  else
    match net with
    | .threw => none
    | .badStatus => none
    | .body data =>
      match moodParseInput data with
      | none => none
      | some text =>
        match parse text with
        | none => none
        | some parsed =>
          if truthy parsed &&
              (truthy (getField parsed "mood") || truthy (getField parsed "habits"))
          then some parsed
          else none

/-- One stored chat turn, as `ChatHistory.find({userId}).sort({timestamp: 1})`
returns them (chronological order is the caller's responsibility and is
assumed of the input list). -/
structure ChatTurn where
  userMessage : String
  botReply : String

/-- The transcript prompt the route assembles from the stored history
(src/unnamed/part_002 lines 250-255): the prior turns joined by newlines,
then the current canonicalized text and a trailing `Bot:` cue. -/
def buildPrompt (history : List ChatTurn) (translatedText : String) : String :=
  let p := String.intercalate "\n"
    (history.map (fun c => "User: " ++ c.userMessage ++ "\nBot: " ++ c.botReply))
  let p := if p.length != 0 then p ++ "\n" else p
  p ++ "User: " ++ translatedText ++ "\nBot:"

/-- The fixed system prompt of the route's `callCohereGenerate`
(src/unnamed/part_002 lines 62-72). -/
def routeSystemPrompt : String :=
  "You are SnoRelax, a compassionate AI assistant focused on mental health, stress relief, and promoting healthy lifestyles. Your responses should:\n\n1. Show empathy and understanding for users' feelings\n2. Provide practical, evidence-based suggestions for stress management\n3. Encourage healthy habits like exercise, meditation, and good sleep\n4. Promote seeking professional help when appropriate\n5. Keep responses supportive, positive, and medically appropriate\n6. Focus on wellness, mindfulness, and emotional well-being\n7. Avoid giving medical diagnoses or prescribing treatments\n\nAlways respond as a caring health companion who guides users toward better mental and physical wellness."

/-- The message `callCohereGenerate` sends to `co.chat`
(src/unnamed/part_002 lines 74-75): the system prompt and the single
`message` argument — nothing else. -/
def cohereChatMessage (message : String) : String :=
  routeSystemPrompt ++ "\n\nUser: " ++ message ++ "\n\nAssistant:"

/-- The record `saveTrainingEntry` appends to training_data.json and the
route's `TrainingEntry.create` argument share these content fields. -/
structure TrainingRec where
  userId : String
  userMessage : String
  botReply : String
  language : String
  source : String
  timestamp : String

/-- The document the route's `TrainingEntry.create` receives
(src/unnamed/part_002 lines 327-334). -/
structure DbTrainingRec where
  userId : String
  userMessage : String
  botReply : String
  language : String
  source : String
  processed : Bool

/-- The document the socket handler's `TrainingEntry.create` receives
(chatbotSocket.js line 162; it passes no `processed` field). -/
structure SockDbTrainingRec where
  userId : String
  userMessage : String
  botReply : String
  language : String
  source : String

/-- `saveTrainingEntry` (src/unnamed/part_002 lines 12-28) reads the
current array in training_data.json and pushes the new entry; modelled on
the decoded array. -/
def saveTrainingEntry (arr : List TrainingRec) (entry : TrainingRec) :
    List TrainingRec :=
  arr ++ [entry]

/-- Inputs of one HTTP chat turn (src/unnamed/part_002 lines 213-370) after
request validation: the request fields, the resolved user role, the stored
history in chronological order, whether `COHERE_API_KEY` is set, the
outcome of each external call, and the clock reading used for
`new Date().toISOString()`. -/
structure RouteInput where
  userId : String
  message : String
  lang : String
  userRole : String
  history : List ChatTurn
  cohereConfigured : Bool
  genOutcome : GenOutcome
  detectNet : FetchOutcome
  transInNet : FetchOutcome
  moodNet : FetchOutcome
  transOutNet : FetchOutcome
  now : String

/-- Everything one HTTP chat turn computes and emits: the intermediate
pipeline state, the message handed to the generative backend (`none` when
it is never invoked), the transcript prompt the route assembles, the
argument of the unconditional `saveTrainingEntry` file write, the argument
of the conditional `TrainingEntry.create` database write, and the JSON
response payload. -/
structure RouteEffects where
  sourceLang : String
  translatedText : String
  preferC : Bool
  promptBuilt : String
  backendMessage : Option String
  botReply : String
  source : String
  fileEntry : Option TrainingRec
  dbEntry : Option DbTrainingRec
  moodAnalysis : Option JsValue
  finalReply : String
  respPayload : List (String × JsValue)

/-- One HTTP chat turn of the route (src/unnamed/part_002 lines 217-364),
statement by statement: detect/translate in, keyword heuristic, transcript
prompt (assembled at lines 250-255; the call at line 265 passes only
`translatedText`), reply fallback chain, unconditional file write,
conditional database write, best-effort mood analysis of the original
message, translate out, and response assembly where `moodAnalysis` is
attached only when truthy. -/
def routeTurn (inp : RouteInput) (parse : String → Option JsValue) :
    RouteEffects :=
  let sourceLang :=
    if inp.lang == "auto" then detectLanguage inp.detectNet else inp.lang
  let translatedText :=
    if sourceLang != "en" then
      (translateRoute inp.message sourceLang "en" inp.transInNet).1
    else inp.message
  let preferC := preferCohere translatedText
  let promptBuilt := buildPrompt inp.history translatedText
  let backendMessage :=
    if inp.cohereConfigured then some (cohereChatMessage translatedText) else none
  let rs := resolveReplyRoute inp.cohereConfigured inp.genOutcome
  let botReply := rs.1
  let source := rs.2
  let fileEntry : Option TrainingRec :=
    some ⟨inp.userId, inp.message, botReply, sourceLang, source, inp.now⟩
  let dbEntry : Option DbTrainingRec :=
    if source == "cohere" || preferC then
      some ⟨inp.userId, inp.message, botReply, sourceLang, source, false⟩
    else none
  let moodAnalysis := callCohereAnalyzeMood inp.cohereConfigured inp.moodNet parse
  let finalReply :=
    if sourceLang != "en" then
      (translateRoute botReply "en" sourceLang inp.transOutNet).1
    else botReply
  let base : List (String × JsValue) :=
    [("sender", .str "bot"), ("text", .str finalReply), ("role", .str inp.userRole)]
  let respPayload :=
    match moodAnalysis with
    | some m => if truthy m then base ++ [("moodAnalysis", m)] else base
    | none => base
  ⟨sourceLang, translatedText, preferC, promptBuilt, backendMessage,
   botReply, source, fileEntry, dbEntry, moodAnalysis, finalReply, respPayload⟩

/-- Inputs of one socket chat turn (chatbotSocket.js lines 120-184) after
payload validation. -/
structure SocketInput where
  userId : String
  message : String
  lang : String
  cohereConfigured : Bool
  genOutcome : GenOutcome
  detectNet : FetchOutcome
  transInNet : FetchOutcome
  moodNet : FetchOutcome
  transOutNet : FetchOutcome

/-- Everything one socket chat turn computes and emits.  The socket handler
computes no keyword heuristic, writes no training file, and always places
a `moodAnalysis` key in the emitted payload. -/
structure SocketEffects where
  sourceLang : String
  translatedText : String
  botReply : String
  source : String
  dbEntry : Option SockDbTrainingRec
  moodAnalysis : Option JsValue
  finalReply : String
  respPayload : List (String × JsValue)

/-- One socket chat turn (chatbotSocket.js lines 122-178), statement by
statement: detect/translate in, reply fallback chain, conditional database
write gated only on `source === 'cohere'`, best-effort mood analysis,
translate out, and the response object
`{ sender: 'bot', text: finalReply, moodAnalysis }`, whose `moodAnalysis`
key is always present (null when the analysis failed). -/
def socketTurn (inp : SocketInput) (parse : String → Option JsValue) :
    SocketEffects :=
  let sourceLang :=
    if inp.lang == "auto" then detectLanguage inp.detectNet else inp.lang
  let translatedText :=
    if sourceLang != "en" then
      (translateSocket inp.message sourceLang "en" inp.transInNet).1
    else inp.message
  let rs := resolveReplySocket inp.cohereConfigured inp.genOutcome
  let botReply := rs.1
  let source := rs.2
  let dbEntry : Option SockDbTrainingRec :=
    if source == "cohere" then
      some ⟨inp.userId, inp.message, botReply, sourceLang, source⟩
    else none
  let moodAnalysis := callCohereAnalyzeMood inp.cohereConfigured inp.moodNet parse
  let finalReply :=
    if sourceLang != "en" then
      (translateSocket botReply "en" sourceLang inp.transOutNet).1
    else botReply
  let moodVal := match moodAnalysis with | some m => m | none => JsValue.null
  let respPayload : List (String × JsValue) :=
    [("sender", .str "bot"), ("text", .str finalReply), ("moodAnalysis", moodVal)]
  ⟨sourceLang, translatedText, botReply, source, dbEntry, moodAnalysis,
   finalReply, respPayload⟩

/-- Lookup of a key in an emitted JSON payload (the serialized object keeps
a key whose value is null). -/
def lookupKey (k : String) (payload : List (String × JsValue)) : Option JsValue :=
  match payload.find? (fun p => p.1 == k) with
  | some p => some p.2
  | none => none

/-- The nine mood labels the spec fixes for `MoodAnalysis.mood`. -/
def moodLabels : List String :=
  ["happy", "sad", "anxious", "stressed", "neutral", "angry", "tired",
   "depressed", "hopeful"]

/-- Modelled from the spec's words (spec sections 3 and 4.3), for comparison
with what the code enforces: a habit suggestion is an object having a
`title` and a `description`. -/
def habitWellFormed (v : JsValue) : Bool :=
  match v with
  | .obj _ => hasField v "title" && hasField v "description"
  | _ => false

/-- Modelled from the spec's words (spec sections 3 and 4.3), for comparison
with what the code enforces: a fully well-formed MoodAnalysis has a `mood`
that is one of the nine labels and a `habits` array of at most three
well-formed habit objects. -/
def moodAnalysisWellFormed (v : JsValue) : Bool :=
  (match getField v "mood" with
   | .str m => moodLabels.contains m
   | _ => false)
  && (match getField v "habits" with
      | .arr hs => decide (hs.length ≤ 3) && hs.all habitWellFormed
      | _ => false)

/-- A parse oracle that always fails; used by concrete turns whose
pipeline never reaches a successful `JSON.parse`. -/
def anyParse : String → Option JsValue := fun _ => none

/-- Whether a value is a JS array, as `Array.isArray` reports. -/
def isArrJs : JsValue → Bool
  | .arr _ => true
  | _ => false

/-- A one-turn stored history, for exercising the transcript prompt. -/
def c1Hist : List ChatTurn := [⟨"earlier question", "earlier answer"⟩]

/-- A route turn with one stored prior exchange. -/
def c1InpA : RouteInput :=
  ⟨"u1", "hi", "en", "user", c1Hist, true, .success "ok",
   .threw, .threw, .threw, .threw, "t0"⟩

/-- The same route turn with an empty stored history. -/
def c1InpB : RouteInput :=
  ⟨"u1", "hi", "en", "user", [], true, .success "ok",
   .threw, .threw, .threw, .threw, "t0"⟩

/-- A socket turn whose message matches no keyword (so the route's
heuristic would flag it prefer-generative) and whose backend is
unconfigured (so the reply is the error fallback). -/
def c2Inp : SocketInput :=
  ⟨"u1", "hello", "en", false, .failure, .threw, .threw, .threw, .threw⟩

/-- A successful translation body in the Google response shape:
`data[0]` is an array of chunks and each chunk's first slot is the
translated piece. -/
def c5Body : JsValue := .arr [.arr [.arr [.str "Bonjour", .str "Hello"]]]

/-- A generation text whose JSON carries a mood label outside the fixed
nine-label set and no habits field. -/
def cexText : String := "\x7b\"mood\":\"confused\"\x7d"

/-- `JSON.parse` restricted to the one string this counterexample feeds it,
agreeing with the host primitive there. -/
def cexParse : String → Option JsValue := fun s =>
  if s == cexText then some (.obj [("mood", .str "confused")]) else none

/-- A mood-endpoint response body carrying `cexText` as its generation. -/
def cexMoodData : JsValue :=
  .obj [("generations", .arr [.obj [("text", .str cexText)]])]

/-- The parsed value of `cexText`. -/
def cexMoodVal : JsValue := .obj [("mood", .str "confused")]

/-- A generation text whose JSON is a fully well-formed mood object. -/
def c6WitText : String := "\x7b\"mood\":\"happy\"\x7d"

/-- The parsed value of `c6WitText`. -/
def c6WitVal : JsValue := .obj [("mood", .str "happy")]

/-- `JSON.parse` restricted to `c6WitText`, agreeing with the host
primitive there. -/
def c6WitParse : String → Option JsValue := fun s =>
  if s == c6WitText then some c6WitVal else none

/-- A mood-endpoint response body carrying `c6WitText` as its generation. -/
def c6WitData : JsValue :=
  .obj [("generations", .arr [.obj [("text", .str c6WitText)]])]

lemma isSome_ite_some_none {α : Type} (c : Bool) (x : α) :
    (if c then some x else none).isSome = c := by
  cases c <;> simp

lemma dropBeforeBrace_eq (l : List Char) :
    dropBeforeBrace l =
      if lbraceChar ∈ l then some (l.dropWhile (fun ch => !(ch == lbraceChar)))
      else none := by
  induction l with
  | nil => simp [dropBeforeBrace]
  | cons c cs ih =>
    by_cases hc : c = lbraceChar
    · subst hc
      simp [dropBeforeBrace, List.dropWhile]
    · have hcb : (c == lbraceChar) = false := beq_false_of_ne hc
      have hmemiff : (lbraceChar ∈ c :: cs) ↔ (lbraceChar ∈ cs) := by
        constructor
        · intro h
          rcases List.mem_cons.mp h with h1 | h2
          · exact absurd h1.symm hc
          · exact h2
        · exact fun h => List.mem_cons_of_mem _ h
      simp only [dropBeforeBrace, hcb, Bool.false_eq_true, if_false, ih,
        List.dropWhile, Bool.not_false, if_true]
      by_cases hm : lbraceChar ∈ cs
      · simp [hm, hmemiff.mpr hm]
      · have : lbraceChar ∉ c :: cs := fun h => hm (hmemiff.mp h)
        simp [hm, this]

lemma getField_null_of_no_field (v : JsValue) (k : String)
    (h : hasField v k = false) : getField v k = .null := by
  cases v with
  | obj fs =>
    simp only [getField]
    cases hf : fs.find? (fun p => p.1 == k) with
    | none => rfl
    | some p =>
      exfalso
      have h1 := List.find?_some hf
      have h2 := List.mem_of_find?_eq_some hf
      have hany : fs.any (fun p => p.1 == k) = true :=
        List.any_eq_true.mpr ⟨p, h2, h1⟩
      simp only [hasField] at h
      rw [h] at hany
      exact Bool.noConfusion hany
  | null => rfl
  | bool b => rfl
  | num n => rfl
  | str s => rfl
  | arr xs => rfl

/-- C1: the claim says the generative backend receives the user's prior
transcript concatenated with the canonicalized message.  In the code the
transcript prompt is assembled (part_002 lines 250-255) but the call at
line 265 passes only `translatedText`, so the backend's input is invariant
under the stored history while the assembled prompt is not: the text the
backend receives depends on the current message alone. -/
theorem c1_backend_input_ignores_transcript :
    (∀ (inp : RouteInput) (parse : String → Option JsValue) (h : List ChatTurn),
        (routeTurn { inp with history := h } parse).backendMessage
          = (routeTurn inp parse).backendMessage)
    ∧ (routeTurn c1InpA anyParse).backendMessage = some (cohereChatMessage "hi")
    ∧ (routeTurn c1InpA anyParse).promptBuilt
        ≠ (routeTurn c1InpB anyParse).promptBuilt := by
  refine ⟨fun inp parse h => rfl, by rfl, by decide⟩

/-- C2 counterexample: a socket turn whose message matches zero keywords
(so the keyword-density heuristic flags it prefer-generative) and whose
source tag is "error" persists no TrainingCandidate, refuting the claimed
"if and only if" on the socket path. -/
theorem c2_socket_heuristic_counterexample :
    preferCohere (socketTurn c2Inp anyParse).translatedText = true
    ∧ (socketTurn c2Inp anyParse).source = "error"
    ∧ (socketTurn c2Inp anyParse).dbEntry = none := by
  refine ⟨by decide, by rfl, by rfl⟩

/-- C2 amended: in the HTTP route a TrainingCandidate is persisted exactly
when the source tag is "cohere" or the preferGenerative flag is true; the
socket handler persists exactly when the source tag is "cohere", ignoring
the keyword heuristic (which it does not compute). -/
theorem c2_training_db_write_condition :
    ∀ (inp : RouteInput) (sinp : SocketInput) (parse : String → Option JsValue),
      ((routeTurn inp parse).dbEntry.isSome
        = (((routeTurn inp parse).source == "cohere")
            || (routeTurn inp parse).preferC))
      ∧ ((socketTurn sinp parse).dbEntry.isSome
        = ((socketTurn sinp parse).source == "cohere")) := by
  intro inp sinp parse
  exact ⟨isSome_ite_some_none _ _, isSome_ite_some_none _ _⟩

/-- C3: for every backend outcome the reply of both handlers is non-empty:
an unconfigured backend yields the fixed unavailable message tagged
"error", a thrown call yields the fixed apology tagged "error", a
successful call whose trimmed text is empty yields the fixed default
message tagged "default", and a successful non-empty call yields the
trimmed text tagged "cohere". -/
theorem c3_reply_fallback_chain :
    ∀ (c : Bool) (out : GenOutcome),
      ((resolveReplyRoute c out).1 ≠ "" ∧ (resolveReplySocket c out).1 ≠ "")
      ∧ (c = false →
          resolveReplyRoute c out
            = ("Service temporarily unavailable. Please try again later.", "error")
          ∧ resolveReplySocket c out
            = ("Service temporarily unavailable. Please try again later.", "error"))
      ∧ (c = true → out = .failure →
          resolveReplyRoute c out
            = ("I'm sorry, I'm having trouble responding right now. Please try again in a moment.", "error")
          ∧ resolveReplySocket c out
            = ("I'm sorry, I'm having trouble responding right now. Please try again in a moment.", "error"))
      ∧ (∀ raw, c = true → out = .success raw → jsTrim raw = "" →
          resolveReplyRoute c out
            = ("I'm here to listen and support you. 🌱 What's on your mind?", "default")
          ∧ resolveReplySocket c out
            = ("I'm here to listen and support you. What's on your mind?", "default"))
      ∧ (∀ raw, c = true → out = .success raw → jsTrim raw ≠ "" →
          resolveReplyRoute c out = (jsTrim raw, "cohere")
          ∧ resolveReplySocket c out = (jsTrim raw, "cohere")) := by
  intro c out
  refine ⟨?_, ?_, ?_, ?_, ?_⟩
  · cases c with
    | false => simp [resolveReplyRoute, resolveReplySocket]
    | true =>
      cases out with
      | failure => simp [resolveReplyRoute, resolveReplySocket]
      | success raw =>
        by_cases h : jsTrim raw = ""
        · simp [resolveReplyRoute, resolveReplySocket, h]
        · simp [resolveReplyRoute, resolveReplySocket, h]
  · rintro rfl
    simp [resolveReplyRoute, resolveReplySocket]
  · rintro rfl rfl
    simp [resolveReplyRoute, resolveReplySocket]
  · rintro raw rfl rfl h
    simp [resolveReplyRoute, resolveReplySocket, h]
  · rintro raw rfl rfl h
    simp [resolveReplyRoute, resolveReplySocket, h]

/-- C4: the preferGenerative flag is true exactly when the matched-keyword
count is at least two or zero, and false exactly when the count is
exactly one. -/
theorem c4_prefer_generative_formula :
    ∀ t : String,
      (preferCohere t = true ↔
        2 ≤ (matchedKeywords t).length ∨ (matchedKeywords t).length = 0)
      ∧ (preferCohere t = false ↔ (matchedKeywords t).length = 1) := by
  intro t
  unfold preferCohere
  constructor
  · simp only [Bool.or_eq_true, decide_eq_true_eq, beq_iff_eq]
  · constructor
    · intro h
      rcases Bool.or_eq_false_iff.mp h with ⟨h1, h2⟩
      simp only [decide_eq_false_iff_not, not_le] at h1
      simp only [beq_eq_false_iff_ne, ne_eq] at h2
      omega
    · intro h
      simp [h]

/-- C5 counterexample: the route's `translate` has no empty-text fast path,
so on empty text with differing language codes it does consult the network
and, when the service responds with chunks, returns their concatenation
rather than the (empty) original text. -/
theorem c5_route_empty_text_counterexample :
    (translateRoute "" "en" "fr" (.body c5Body)).2 = true
    ∧ (translateRoute "" "en" "fr" (.body c5Body)).1 ≠ "" := by
  refine ⟨by rfl, by decide⟩

/-- C5 amended: same-language calls short-circuit without a network call in
both variants; the empty-text fast path exists only in the socket variant;
every failure outcome — thrown call or timeout, non-success status, falsy
body, or a body whose first slot is not an array — returns the original
text unchanged; and on non-empty text the socket variant is the route's
code exactly.  Neither variant throws: both are total functions whose
every branch returns a text. -/
theorem c5_translate_fallback :
    ∀ (text s t : String) (net : FetchOutcome),
      (s = t → translateRoute text s t net = (text, false))
      ∧ (s = t → translateSocket text s t net = (text, false))
      ∧ (text = "" → translateSocket text s t net = (text, false))
      ∧ (net = .threw → (translateRoute text s t net).1 = text)
      ∧ (net = .badStatus → (translateRoute text s t net).1 = text)
      ∧ (∀ d, net = .body d → truthy d = false →
          (translateRoute text s t net).1 = text)
      ∧ (∀ d, net = .body d → isArrJs (jsIndex d 0) = false →
          (translateRoute text s t net).1 = text)
      ∧ (text ≠ "" → translateSocket text s t net = translateRoute text s t net) := by
  intro text s t net
  refine ⟨?_, ?_, ?_, ?_, ?_, ?_, ?_, ?_⟩
  · rintro rfl; simp [translateRoute]
  · rintro rfl
    by_cases h : text = "" <;> simp [translateSocket, translateRoute, h]
  · rintro rfl; simp [translateSocket]
  · rintro rfl
    by_cases h : s = t <;> simp [translateRoute, h]
  · rintro rfl
    by_cases h : s = t <;> simp [translateRoute, h]
  · rintro d rfl hd
    by_cases h : s = t <;> simp [translateRoute, h, hd]
  · rintro d rfl hd
    by_cases h : s = t
    · simp [translateRoute, h]
    · cases ha : jsIndex d 0 with
      | arr xs => rw [ha] at hd; simp [isArrJs] at hd
      | _ => by_cases h2 : truthy d <;> simp [translateRoute, h, h2, ha]
  · intro h
    simp [translateSocket, h]

/-- C6 counterexample: the extractor's validation only checks truthiness of
`mood` or `habits`, so a value whose mood is outside the nine-label set
and which has no habits field at all is surfaced non-null, refuting full
well-formedness of every surfaced analysis. -/
theorem c6_shape_not_enforced_counterexample :
    callCohereAnalyzeMood true (.body cexMoodData) cexParse = some cexMoodVal
    ∧ moodAnalysisWellFormed cexMoodVal = false := by
  refine ⟨by rfl, by rfl⟩

/-- C6 amended: every non-null value the mood extractor surfaces is a
truthy JSON value with a truthy `mood` field or a truthy `habits` field —
that is the whole guarantee; the nine-label constraint and the
at-most-three `{title, description}` shape of habits are not enforced. -/
theorem c6_mood_basic_validation :
    ∀ (c : Bool) (net : FetchOutcome) (parse : String → Option JsValue)
      (v : JsValue),
      callCohereAnalyzeMood c net parse = some v →
      truthy v = true
      ∧ (truthy (getField v "mood") || truthy (getField v "habits")) = true := by
  intro c net parse v h
  cases c with
  | false => simp [callCohereAnalyzeMood] at h
  | true =>
    cases net with
    | threw => simp [callCohereAnalyzeMood] at h
    | badStatus => simp [callCohereAnalyzeMood] at h
    | body d =>
      cases hin : moodParseInput d with
      | none => simp [callCohereAnalyzeMood, hin] at h
      | some text =>
        cases hp : parse text with
        | none => simp [callCohereAnalyzeMood, hin, hp] at h
        | some parsed =>
          simp only [callCohereAnalyzeMood, Bool.not_true, Bool.false_eq_true,
            if_false, hin, hp] at h
          split at h
          · rename_i hcond
            injection h with hv
            subst hv
            rw [Bool.and_eq_true] at hcond
            exact hcond
          · exact Option.noConfusion h

/-- C6 witness: a fully well-formed extraction is surfaced and satisfies
the amended guarantee at a concrete input. -/
theorem c6_mood_basic_validation_witness :
    callCohereAnalyzeMood true (.body c6WitData) c6WitParse = some c6WitVal
    ∧ (truthy c6WitVal = true
       ∧ (truthy (getField c6WitVal "mood")
          || truthy (getField c6WitVal "habits")) = true) := by
  refine ⟨?_, ?_⟩
  · rfl
  · exact c6_mood_basic_validation true (.body c6WitData) c6WitParse c6WitVal
      (by rfl)

/-- C7: the mood extractor returns null when the backend is unconfigured,
when the fetch throws or the status is non-success, when `JSON.parse`
fails on the recovered text, and when the parsed object carries neither a
`mood` nor a `habits` field; and the text it parses is exactly the trimmed
generation text sliced from its first opening brace (unchanged when no
brace occurs). -/
theorem c7_mood_null_cases :
    ∀ (c : Bool) (net : FetchOutcome) (parse : String → Option JsValue)
      (d : JsValue) (s : String),
      (c = false → callCohereAnalyzeMood c net parse = none)
      ∧ (net = .badStatus → callCohereAnalyzeMood c net parse = none)
      ∧ (net = .threw → callCohereAnalyzeMood c net parse = none)
      ∧ (net = .body d → moodParseInput d = some s → parse s = none →
          callCohereAnalyzeMood c net parse = none)
      ∧ (∀ v, net = .body d → moodParseInput d = some s → parse s = some v →
          hasField v "mood" = false → hasField v "habits" = false →
          callCohereAnalyzeMood c net parse = none)
      ∧ (moodParseInput d = (moodRespText d).map sliceFromFirstBrace)
      ∧ (lbraceChar ∈ s.data →
          (sliceFromFirstBrace s).data
            = s.data.dropWhile (fun ch => !(ch == lbraceChar)))
      ∧ (lbraceChar ∉ s.data → sliceFromFirstBrace s = s) := by
  intro c net parse d s
  refine ⟨?_, ?_, ?_, ?_, ?_, rfl, ?_, ?_⟩
  · rintro rfl; simp [callCohereAnalyzeMood]
  · rintro rfl; cases c <;> simp [callCohereAnalyzeMood]
  · rintro rfl; cases c <;> simp [callCohereAnalyzeMood]
  · rintro rfl hin hp
    cases c with
    | false => simp [callCohereAnalyzeMood]
    | true => simp [callCohereAnalyzeMood, hin, hp]
  · rintro v rfl hin hp hm hh
    cases c with
    | false => simp [callCohereAnalyzeMood]
    | true =>
      have gm := getField_null_of_no_field v "mood" hm
      have gh := getField_null_of_no_field v "habits" hh
      simp [callCohereAnalyzeMood, hin, hp, gm, gh, truthy]
  · intro hmem
    simp [sliceFromFirstBrace, dropBeforeBrace_eq, hmem]
  · intro hmem
    simp [sliceFromFirstBrace, dropBeforeBrace_eq, hmem]

/-- C8 counterexample: the socket handler builds its payload as
`{ sender, text, moodAnalysis }`, so when mood extraction yields null the
emitted payload still carries the `moodAnalysis` key, with value null. -/
theorem c8_socket_null_key_counterexample :
    lookupKey "moodAnalysis" (socketTurn c2Inp anyParse).respPayload
      = some JsValue.null := by rfl

/-- C8 amended: the HTTP route attaches `moodAnalysis` only when the
extraction produced a value, so a null extraction leaves the key absent;
the socket handler always emits the key, carrying the extraction's value
or null. -/
theorem c8_moodAnalysis_key_policy :
    (∀ (inp : RouteInput) (parse : String → Option JsValue),
        callCohereAnalyzeMood inp.cohereConfigured inp.moodNet parse = none →
        lookupKey "moodAnalysis" (routeTurn inp parse).respPayload = none)
    ∧ (∀ (sinp : SocketInput) (parse : String → Option JsValue),
        lookupKey "moodAnalysis" (socketTurn sinp parse).respPayload
          = some (match callCohereAnalyzeMood sinp.cohereConfigured sinp.moodNet parse with
                  | some m => m
                  | none => JsValue.null)) := by
  constructor
  · intro inp parse h
    simp only [routeTurn, h]
    rfl
  · intro sinp parse
    rfl

/-- C8 witness for the amended route half, at a concrete turn whose mood
extraction fails. -/
theorem c8_moodAnalysis_key_policy_witness :
    callCohereAnalyzeMood c1InpA.cohereConfigured c1InpA.moodNet anyParse = none
    ∧ lookupKey "moodAnalysis" (routeTurn c1InpA anyParse).respPayload = none := by
  refine ⟨by rfl, ?_⟩
  exact c8_moodAnalysis_key_policy.1 c1InpA anyParse (by rfl)

/-- C9: every completed route turn hands `saveTrainingEntry` a record with
exactly the six fields `{userId, userMessage, botReply, language, source,
timestamp}`, unconditionally — independent of the source tag and of the
heuristic that gates the separate database write — and `saveTrainingEntry`
appends it to the decoded training file array. -/
theorem c9_training_file_write_unconditional :
    ∀ (inp : RouteInput) (parse : String → Option JsValue)
      (arr : List TrainingRec) (e : TrainingRec),
      (routeTurn inp parse).fileEntry
        = some ⟨inp.userId, inp.message, (routeTurn inp parse).botReply,
                (routeTurn inp parse).sourceLang, (routeTurn inp parse).source,
                inp.now⟩
      ∧ saveTrainingEntry arr e = arr ++ [e] := by
  intro inp parse arr e
  exact ⟨rfl, rfl⟩

/-- C10: the matched-keyword count counts distinct entries of the fixed
17-entry list — the match list is duplicate-free and drawn from the list,
a message repeating one keyword three times counts one (making
preferGenerative false), matching is by substring so "workout" matches the
keyword "work", and matching is case-insensitive. -/
theorem c10_keyword_matching_distinct_substrings :
    (∀ t, (matchedKeywords t).Nodup ∧ matchedKeywords t ⊆ KEYWORDS)
    ∧ KEYWORDS.length = 17
    ∧ matchedKeywords "stress stress stress" = ["stress"]
    ∧ preferCohere "stress stress stress" = false
    ∧ matchedKeywords "I did my workout" = ["work"]
    ∧ matchedKeywords "STRESS" = ["stress"] := by
  refine ⟨fun t => ⟨List.Nodup.filter _ (by decide),
    (List.filter_sublist _).subset⟩, ?_, ?_, ?_, ?_, ?_⟩ <;> decide
